import Mathlib

/-!
# Verification of `jhsiao.ioutils` (fdwrap, bytereader, devnull, seqwriter)

A shallow embedding of the Python modules under `src/jhsiao/ioutils/` and
proofs about them.  Byte strings are modelled as `List Nat`, Python `bytes`
slicing as `List.drop`/`List.take`, and stateful methods as explicit
state-passing functions.  The background `Forwarder` class is imported by
`fdwrap.py` from `jhsiao.ioutils.forwarder`, a module that is not part of
the sources; its operations (copy loop, `stop`, `join`) are modelled from
the specification where noted.
-/

set_option autoImplicit false

namespace IOUtils

/-! ## bytereader.py : `BytesReader` -/

/-- State of a `BytesReader`: `self.data` (an immutable byte buffer,
modelled as a list of bytes) and `self.pos` (the read position). -/
structure BytesReader where
  data : List Nat
  pos : Nat
deriving Repr, DecidableEq

/-- `BytesReader.readview(size=-1)`:
```
data = self.data; pos = self.pos; dlen = len(data)
if size is None or size < 0:
    ret = data[pos:]; self.pos = dlen; return ret
end = min(pos+size, dlen)
ret = data[pos:end]; self.pos = end; return ret
```
`size = none` models Python `size=None`; the Python slice `data[pos:end]`
is `(data.drop pos).take (end - pos)` (empty when `end ≤ pos`, exactly as
in Python). Returns the bytes read together with the updated state. -/
def BytesReader.readview (b : BytesReader) (size : Option Int) : List Nat × BytesReader :=
  match size with
  | none => (b.data.drop b.pos, { b with pos := b.data.length })
  | some s =>
      if s < 0 then
        (b.data.drop b.pos, { b with pos := b.data.length })
      else
        let e := min (b.pos + s.toNat) b.data.length
        ((b.data.drop b.pos).take (e - b.pos), { b with pos := e })

/-- `BytesReader.read(size=-1)`: `return self.readview(size).tobytes()`.
`.tobytes()` only converts the memoryview to `bytes`; the byte content is
that of the view, so in this model `read` equals `readview`. -/
def BytesReader.read (b : BytesReader) (size : Option Int) : List Nat × BytesReader :=
  b.readview size

/-! ## devnull.py : `DevNull` -/

/-- The class body of `DevNull` runs
`try: from subprocess import DEVNULL except ImportError: DEVNULL = None`,
so the class has an attribute named `DEVNULL` (the subprocess sentinel,
`-3` in CPython, or `None` when the import fails). -/
def DevNull.attrDEVNULL : Option Int := some (-3)

/-- Attribute lookup on a `DevNull` instance for the names `fileno` reads:
the class defines `DEVNULL` (see `DevNull.attrDEVNULL`); no attribute
named `_DEVNULL` is defined anywhere in the class or set on instances, so
looking it up yields `none` (Python raises `AttributeError`). -/
def DevNull.lookupAttr (attr : String) : Option (Option Int) :=
  if attr = "DEVNULL" then some DevNull.attrDEVNULL else none

/-- Instance state of `DevNull`: `self._is_sp` (the `subprocess` flag) and
`self._f` (the lazily opened null-device file, `none` until opened). -/
structure DevNull where
  is_sp : Bool
  f : Option Unit
deriving Repr, DecidableEq

/-- Possible outcomes of a call to `DevNull.fileno`. -/
inductive FilenoOutcome where
  | raisedAttributeError (attr : String)
  | returnedSentinel (v : Int)
  | openedNullDevice
deriving Repr, DecidableEq

/-- `DevNull.fileno`:
```
if self._is_sp and self._DEVNULL is not None:
    return self._DEVNULL
if self._f is None:
    ... open os.devnull ...
return self._f.fileno()
```
`and` short-circuits: the attribute `self._DEVNULL` is only looked up when
`self._is_sp` is true, and that lookup is not inside the
`try/except AttributeError` (which guards only the later `open` call). A
failed lookup raises `AttributeError` out of `fileno`. -/
def DevNull.fileno (d : DevNull) : FilenoOutcome :=
  if d.is_sp then
    match DevNull.lookupAttr "_DEVNULL" with
    | none => FilenoOutcome.raisedAttributeError "_DEVNULL"
    | some v =>
        match v with
        | some s => FilenoOutcome.returnedSentinel s
        | none => FilenoOutcome.openedNullDevice
  else
    FilenoOutcome.openedNullDevice

/-! ## fdwrap.py : `FDWrap` capability queries

All four are `@staticmethod`s of `FDWrap` with constant bodies; they take
no `self` and do not depend on the construction mode. -/

/-- `FDWrap.isatty`: `return False`. -/
def FDWrap.isatty : Bool := false

/-- `FDWrap.readable`: `return False`. -/
def FDWrap.readable : Bool := false

/-- `FDWrap.writable`: `return False`. -/
def FDWrap.writable : Bool := false

/-- `FDWrap.seekable`: `return False`. -/
def FDWrap.seekable : Bool := false

/-! ## fdwrap.py : `FDWrap.__init__` -/

/-- A reference to one of the three streams `FDWrap.__init__` handles:
the caller's original file-like object `fobj` (`self._orig`), or one of
the two ends of the freshly created OS pipe wrapped by `os.fdopen`. -/
inductive StreamRef where
  | orig
  | pipeReadEnd
  | pipeWriteEnd
deriving Repr, DecidableEq

/-- The positional arguments of `Forwarder(src, dst, ownsSrc, ownsDst)` as
passed by `FDWrap.__init__`. -/
structure ForwarderArgs where
  source : StreamRef
  sink : StreamRef
  ownsSource : Bool
  ownsSink : Bool
deriving Repr, DecidableEq

/-- Observable steps of `FDWrap.__init__`.  `raisedValueError` is the
`ValueError` that `os.fdopen` raises on an ill-formed mode string;
`raisedInvalidMode` is the `InvalidModeError` the spec names (it never
occurs in the code). -/
inductive InitEv where
  | pipeCreated
  | exposedOpened (e : StreamRef)
  | forwarderStarted (a : ForwarderArgs)
  | raisedValueError
  | raisedInvalidMode
deriving Repr, DecidableEq

/-- Mode-string validation performed by `os.fdopen` (Python 3: `io.open`):
every character must be one of `axrwb+t` with no duplicates, text `'t'`
and binary `'b'` are mutually exclusive, and exactly one of
create/read/write/append (`'x'`, `'r'`, `'w'`, `'a'`) must be present —
otherwise `ValueError` is raised. -/
def fdopenModeValid (mode : List Char) : Bool :=
  mode.all (fun c => (['a', 'x', 'r', 'w', 'b', '+', 't'] : List Char).contains c) &&
  mode.dedup.length == mode.length &&
  !(mode.contains 't' && mode.contains 'b') &&
  ((if mode.contains 'x' then 1 else 0) + (if mode.contains 'r' then 1 else 0) +
   (if mode.contains 'w' then 1 else 0) + (if mode.contains 'a' then 1 else 0)
     == (1 : Nat))

/-- `FDWrap.__init__(fobj, mode)`:
```
self._orig = fobj
r, w = os.pipe()
if 'r' in mode:
    self.file = os.fdopen(r, mode)
    self._forward = Forwarder(fobj, os.fdopen(w, 'wb'), False, True)
else:
    self.file = os.fdopen(w, mode)
    self._forward = Forwarder(os.fdopen(r, 'rb'), fobj, True, False)
```
The pipe is created unconditionally before `mode` is examined; the only
inspection of `mode` by `__init__` itself is the membership test
`'r' in mode`.  In each branch the first statement opens the exposed end
with `os.fdopen(fd, mode)`: an ill-formed mode makes that call raise
`ValueError` (see `fdopenModeValid`), so the exposed file is never opened
and the `Forwarder(...)` call is never reached; with a well-formed mode
the exposed end is opened and the Forwarder is started (its own `fdopen`
uses the fixed valid modes `'wb'`/`'rb'`).  `__init__` never raises
`InvalidModeError`. -/
def fdwrapInitTrace (mode : List Char) : List InitEv :=
  InitEv.pipeCreated ::
    (if mode.contains 'r' then
      (if fdopenModeValid mode then
        [InitEv.exposedOpened StreamRef.pipeReadEnd,
         InitEv.forwarderStarted ⟨StreamRef.orig, StreamRef.pipeWriteEnd, false, true⟩]
      else
        [InitEv.raisedValueError])
    else
      (if fdopenModeValid mode then
        [InitEv.exposedOpened StreamRef.pipeWriteEnd,
         InitEv.forwarderStarted ⟨StreamRef.pipeReadEnd, StreamRef.orig, true, false⟩]
      else
        [InitEv.raisedValueError]))

/-- The `(self.file, forwarder arguments)` wiring chosen by
`FDWrap.__init__` for a given mode: read branch when `'r' in mode`,
write branch otherwise (same branch condition as `fdwrapInitTrace`). -/
def fdwrapSetup (mode : List Char) : StreamRef × ForwarderArgs :=
  if mode.contains 'r' then
    (StreamRef.pipeReadEnd, ⟨StreamRef.orig, StreamRef.pipeWriteEnd, false, true⟩)
  else
    (StreamRef.pipeWriteEnd, ⟨StreamRef.pipeReadEnd, StreamRef.orig, true, false⟩)

/-! ## Forwarder (modelled from the spec)

`fdwrap.py` does `from .forwarder import Forwarder`, but
`jhsiao/ioutils/forwarder.py` is not among the sources.  The definitions
in this section are therefore modelled from the specification, §4.1. -/

/-- Modelled from the spec: the Forwarder result recorded on loop exit —
"record the result (normal-eof | stopped | error)" (§4.1). The missing
module is `jhsiao/ioutils/forwarder.py`. -/
inductive FwdResult where
  | normalEof
  | stopped
  | error
deriving Repr, DecidableEq

/-- Modelled from the spec: the observable state of a Forwarder
(`jhsiao/ioutils/forwarder.py` is missing from the sources) — whether a
stop was requested, whether the copy loop has exited, whether the pipe
end(s) the Forwarder owns have been closed (done once, on loop exit:
"close `source` if `ownsSource`, close `sink` if `ownsSink`"), and the
recorded result. -/
structure ForwarderState where
  stopRequested : Bool
  exited : Bool
  ownedReleased : Bool
  result : FwdResult
deriving Repr, DecidableEq

/-- Observable resource/lifecycle events of the Bridge and its Forwarder. -/
inductive BridgeEv where
  | closeExposedFile
  | forwarderJoinCalled
  | forwarderStopRequested
  | ownedEndClosed
  | closeOrigCalled
deriving Repr, DecidableEq

/-- Modelled from the spec: `Forwarder.stop()` — "signals the loop to exit
at the next safe point ...; idempotent; safe to call after natural
completion (no-op)"; it does not block, raises nothing, and touches no
other state (`jhsiao/ioutils/forwarder.py` is missing from the sources). -/
def Forwarder.stop (s : ForwarderState) : ForwarderState × List BridgeEv :=
  ({ s with stopRequested := true }, [BridgeEv.forwarderStopRequested])

/-- Modelled from the spec: `Forwarder.join()` — "blocks the caller until
the loop has exited (by any cause) and owned resources are released;
idempotent, returns the recorded result; must not deadlock even if the
loop has already exited" (§4.1); the owned pipe end is closed exactly once,
at loop exit (`jhsiao/ioutils/forwarder.py` is missing from the sources).
In this sequential model, the wait for loop exit is collapsed into the
call: after `join` returns, `exited` holds and owned ends are released;
if they were already released, nothing is released again. -/
def Forwarder.join (s : ForwarderState) : ForwarderState × List BridgeEv × FwdResult :=
  if s.exited then
    (s, [BridgeEv.forwarderJoinCalled], s.result)
  else
    ({ s with exited := true, ownedReleased := true },
     BridgeEv.forwarderJoinCalled ::
       (if s.ownedReleased then [] else [BridgeEv.ownedEndClosed]),
     s.result)

/-! ## fdwrap.py : `FDWrap` lifecycle (`__exit__`, `join`, `detach`, `close`) -/

/-- State of an `FDWrap` instance after construction: `origId` is the
identity of the object bound to `self._orig` in `__init__` (never
reassigned by any method), `origClosed` records whether that object's
`close()` has been called, `fileClosed` whether the exposed pipe-end file
`self.file` is closed, and `fwd` the Forwarder `self._forward`. -/
structure FDWrapState where
  origId : Nat
  origClosed : Bool
  fileClosed : Bool
  fwd : ForwarderState
deriving Repr, DecidableEq

/-- The `FDWrapState` right after `FDWrap.__init__` for the object with
identity `origId`: the exposed file is open, the caller's object untouched,
and the Forwarder freshly started (loop running, nothing released,
provisional result `normalEof` to be overwritten at loop exit). -/
def FDWrap.initState (origId : Nat) : FDWrapState :=
  { origId := origId, origClosed := false, fileClosed := false,
    fwd := { stopRequested := false, exited := false,
             ownedReleased := false, result := FwdResult.normalEof } }

/-- `self.file.close()`: closing a Python file object releases its OS
descriptor the first time and is a documented no-op on an already-closed
file. -/
def FDWrap.fileClose (s : FDWrapState) : FDWrapState × List BridgeEv :=
  if s.fileClosed then (s, [])
  else ({ s with fileClosed := true }, [BridgeEv.closeExposedFile])

/-- `FDWrap.__exit__(self, tp, exc, tb)`: `self.file.close()` — nothing
else. -/
def FDWrap.exitCM (s : FDWrapState) : FDWrapState × List BridgeEv :=
  FDWrap.fileClose s

/-- `FDWrap.join`:
```
self.file.close()
self._forward.join()
return self._orig
```
Returns (new state, event trace, identity of the returned object). -/
def FDWrap.join (s : FDWrapState) : FDWrapState × List BridgeEv × Nat :=
  let p := FDWrap.fileClose s
  let q := Forwarder.join p.1.fwd
  ({ p.1 with fwd := q.1 }, p.2 ++ q.2.1, s.origId)

/-- `FDWrap.detach`:
```
self._forward.stop()
return self._orig
```
Returns (new state, event trace, identity of the returned object). -/
def FDWrap.detach (s : FDWrapState) : FDWrapState × List BridgeEv × Nat :=
  let p := Forwarder.stop s.fwd
  ({ s with fwd := p.1 }, p.2, s.origId)

/-- `FDWrap.close`: `self.detach().close()` — detach, then call `close()`
on the returned original object. -/
def FDWrap.close (s : FDWrapState) : FDWrapState × List BridgeEv :=
  let p := FDWrap.detach s
  ({ p.1 with origClosed := true }, p.2.1 ++ [BridgeEv.closeOrigCalled])

/-! ## Forwarder copy loop (modelled from the spec)

For a write-mode Bridge, bytes written through the exposed descriptor land
in the kernel pipe, which delivers them FIFO; the Forwarder's reads from
the pipe-read end therefore see the written byte sequence cut into some
arbitrary sequence of non-empty chunks (chunk boundaries depend on timing
and the fixed read size, but never on content).  The copy loop below is
modelled from the spec, §4.1. -/

/-- Modelled from the spec: one chunk's trip through the sink —
"write the full chunk to `sink`, retrying partial writes until all bytes
of the chunk are consumed" (§4.1; `jhsiao/ioutils/forwarder.py` is missing
from the sources).  `accept i` is how many bytes the sink's `write`
accepts on the `i`-th call overall (a partial write accepts fewer than
offered); each call delivers the next `min (accept i) rest.length` bytes
and the loop retries on the remainder.  `fuel` bounds the number of write
calls; when every call accepts at least one byte, `rest.length` calls
always suffice.  Returns the bytes the sink received (in order) and the
next call index. -/
def writeChunk (accept : Nat → Nat) : Nat → Nat → List Nat → List Nat × Nat
  | _, i, [] => ([], i)
  | 0, i, _ => ([], i)
  | fuel+1, i, rest =>
      let n := min (accept i) rest.length
      let p := writeChunk accept fuel (i+1) (rest.drop n)
      (rest.take n ++ p.1, p.2)

/-- Modelled from the spec: the Forwarder copy loop — "repeatedly read up
to a fixed chunk size from `source`; a zero-length ... read terminates the
loop normally; otherwise write the full chunk to `sink`" (§4.1;
`jhsiao/ioutils/forwarder.py` is missing from the sources).  `chunks` is
the sequence of reads the source delivers (for a write-mode Bridge, the
pipe's FIFO cut of the written bytes); `i` the index of the next sink
write call.  Returns everything the sink received, in order. -/
def copyLoop (accept : Nat → Nat) : Nat → List (List Nat) → List Nat
  | _, [] => []
  | i, c :: cs =>
      if c = [] then []
      else
        let p := writeChunk accept c.length i c
        p.1 ++ copyLoop accept p.2 cs

/-! ## Helper lemmas -/

/-- When every sink write call accepts at least one byte, `rest.length`
calls of fuel suffice and the sink receives exactly the chunk. -/
theorem writeChunk_delivers (accept : Nat → Nat) (h : ∀ j, 1 ≤ accept j) :
    ∀ (fuel : Nat) (rest : List Nat) (i : Nat), rest.length ≤ fuel →
      (writeChunk accept fuel i rest).1 = rest := by
  intro fuel
  induction fuel with
  | zero =>
      intro rest i hlen
      have hnil : rest = [] := List.eq_nil_of_length_eq_zero (Nat.le_zero.mp hlen)
      subst hnil
      rfl
  | succ fuel ih =>
      intro rest i hlen
      match rest with
      | [] => rfl
      | b :: t =>
          simp only [writeChunk]
          have hrec : (writeChunk accept fuel (i + 1)
              ((b :: t).drop (min (accept i) (b :: t).length))).1 =
              (b :: t).drop (min (accept i) (b :: t).length) := by
            apply ih
            have h1 : 1 ≤ min (accept i) (b :: t).length :=
              Nat.le_min.mpr ⟨h i, Nat.succ_le_succ (Nat.zero_le _)⟩
            rw [List.length_drop]
            simp only [List.length_cons] at hlen ⊢
            omega
          rw [hrec, List.take_append_drop]

/-- The copy loop over any list of non-empty source chunks delivers their
concatenation to the sink, for any starting write-call index. -/
theorem copyLoop_flatten (accept : Nat → Nat) (h : ∀ j, 1 ≤ accept j) :
    ∀ (chunks : List (List Nat)) (i : Nat), (∀ c ∈ chunks, c ≠ []) →
      copyLoop accept i chunks = chunks.flatten := by
  intro chunks
  induction chunks with
  | nil => intro i _; rfl
  | cons c cs ih =>
      intro i hne
      have hc : c ≠ [] := hne c (List.mem_cons_self c cs)
      simp only [copyLoop, if_neg hc, List.flatten_cons]
      rw [writeChunk_delivers accept h c.length c i (Nat.le_refl _)]
      rw [ih _ (fun d hd => hne d (List.mem_cons_of_mem c hd))]

/-! ## Claim theorems -/

/-- C1: for every byte sequence `B` written through the exposed descriptor
of a write-mode Bridge, in arbitrary chunk sizes, after `join()` the
original sink stream object has received exactly `B`, in order, with no
gaps, duplication or reordering.  In write mode the Forwarder's sink is
the caller's original object (first conjunct, from `FDWrap.__init__`).
The kernel pipe is FIFO, so the Forwarder's reads see the written bytes as
some arbitrary sequence `chunks` of non-empty chunks whose concatenation
is `B`; `accept` is an arbitrary schedule of how many bytes each sink
`write` call accepts (partial writes), each call accepting at least one
byte.  The copy loop (which `join()` waits for) delivers exactly `B`. -/
theorem fdwrap_write_mode_delivers_exactly
    (B : List Nat) (chunks : List (List Nat)) (accept : Nat → Nat)
    (hchunks : ∀ c ∈ chunks, c ≠ [])
    (hpipe : chunks.flatten = B)
    (haccept : ∀ j, 1 ≤ accept j) :
    (fdwrapSetup ['w', 'b']).2.sink = StreamRef.orig ∧
    copyLoop accept 0 chunks = B := by
  constructor
  · rfl
  · rw [copyLoop_flatten accept haccept chunks 0 hchunks, hpipe]

/-- Witness for C1: bytes `[10, 11, 12]` arriving as chunks
`[[10, 11], [12]]` with a sink that accepts one byte per write call
(forcing partial-write retries) are delivered exactly. -/
theorem fdwrap_write_mode_delivers_exactly_witness :
    ([[10, 11], [12]] : List (List Nat)).flatten = [10, 11, 12] ∧
    copyLoop (fun _ => 1) 0 [[10, 11], [12]] = [10, 11, 12] :=
  ⟨by decide,
   (fdwrap_write_mode_delivers_exactly [10, 11, 12] [[10, 11], [12]]
      (fun _ => 1) (by decide) (by decide) (fun _ => Nat.le_refl 1)).2⟩

/-- C2 (counterexample): the mode string `"rw"` resolves to both read-mode
and write-mode (it contains both `'r'` and `'w'`), so per the claim
`FDWrap("rw")` should raise `InvalidModeError` synchronously, before any
pipe is created — but `__init__` creates the pipe as its first step, takes
the read branch, and the failure that then occurs is a `ValueError` from
`os.fdopen(r, 'rw')`, not an `InvalidModeError` (that name does not occur
anywhere in the code), and it happens after the pipe exists. -/
theorem fdwrap_init_rw_counterexample :
    (['r', 'w'] : List Char).contains 'r' = true ∧
    (['r', 'w'] : List Char).contains 'w' = true ∧
    fdwrapInitTrace ['r', 'w'] = [InitEv.pipeCreated, InitEv.raisedValueError] := by
  decide

/-- C2 (amended): `FDWrap.__init__` performs no mode validation of its own
and never raises `InvalidModeError`; for every mode it creates the pipe
first, then treats any mode containing `'r'` as read-mode and every other
mode as write-mode; a mode that does not resolve to exactly one of
read/write (or is otherwise ill-formed) fails with a `ValueError` raised
by `os.fdopen` when opening the exposed end — after the pipe exists, and
before the exposed file is opened or the Forwarder is started. -/
theorem fdwrap_init_no_mode_validation (mode : List Char) :
    (fdwrapInitTrace mode).head? = some InitEv.pipeCreated ∧
    (fdwrapInitTrace mode).count InitEv.raisedInvalidMode = 0 ∧
    (mode.contains 'r' = true → fdopenModeValid mode = true →
      fdwrapInitTrace mode =
        [InitEv.pipeCreated, InitEv.exposedOpened StreamRef.pipeReadEnd,
         InitEv.forwarderStarted ⟨StreamRef.orig, StreamRef.pipeWriteEnd, false, true⟩]) ∧
    (mode.contains 'r' = false → fdopenModeValid mode = true →
      fdwrapInitTrace mode =
        [InitEv.pipeCreated, InitEv.exposedOpened StreamRef.pipeWriteEnd,
         InitEv.forwarderStarted ⟨StreamRef.pipeReadEnd, StreamRef.orig, true, false⟩]) ∧
    (fdopenModeValid mode = false →
      fdwrapInitTrace mode = [InitEv.pipeCreated, InitEv.raisedValueError]) := by
  refine ⟨?_, ?_, ?_, ?_, ?_⟩
  · unfold fdwrapInitTrace; rfl
  · unfold fdwrapInitTrace; split <;> split <;> decide
  · intro h hv; unfold fdwrapInitTrace; rw [h, hv]; rfl
  · intro h hv; unfold fdwrapInitTrace; rw [h, hv]; rfl
  · intro hv; unfold fdwrapInitTrace; rw [hv]; split <;> rfl

/-- Witness for C2 (amended): the read branch at `"rb"`, the write branch
at `"wb"`, and the `os.fdopen` failure path at the ill-formed mode `"+"`
(it has no create/read/write/append flag at all). -/
theorem fdwrap_init_no_mode_validation_witness :
    fdwrapInitTrace ['r', 'b'] =
      [InitEv.pipeCreated, InitEv.exposedOpened StreamRef.pipeReadEnd,
       InitEv.forwarderStarted ⟨StreamRef.orig, StreamRef.pipeWriteEnd, false, true⟩] ∧
    fdwrapInitTrace ['w', 'b'] =
      [InitEv.pipeCreated, InitEv.exposedOpened StreamRef.pipeWriteEnd,
       InitEv.forwarderStarted ⟨StreamRef.pipeReadEnd, StreamRef.orig, true, false⟩] ∧
    fdwrapInitTrace ['+'] = [InitEv.pipeCreated, InitEv.raisedValueError] :=
  ⟨(fdwrap_init_no_mode_validation ['r', 'b']).2.2.1 (by decide) (by decide),
   (fdwrap_init_no_mode_validation ['w', 'b']).2.2.2.1 (by decide) (by decide),
   (fdwrap_init_no_mode_validation ['+']).2.2.2.2 (by decide)⟩

/-- C3 (counterexample): a Bridge constructed with mode `"rb"` is
read-mode (it exposes the pipe's read end), yet `FDWrap.readable()`
returns `False`, not `True` as the claim requires of a read-mode Bridge
("a read-mode Bridge reports readable"). -/
theorem fdwrap_read_mode_not_readable :
    (fdwrapSetup ['r', 'b']).1 = StreamRef.pipeReadEnd ∧
    FDWrap.readable = false := by
  decide

/-- C3 (amended): `seekable()` and `isatty()` return `False`, and
`readable()` and `writable()` also both return `False` unconditionally —
they are staticmethods with constant bodies, identical for read-mode and
write-mode instances, independent of the exposed pipe end's intrinsic
direction. -/
theorem fdwrap_capability_profile :
    FDWrap.readable = false ∧ FDWrap.writable = false ∧
    FDWrap.seekable = false ∧ FDWrap.isatty = false := by
  decide

/-- C4: in read-mode (`'r' in mode`) the exposed file is the pipe's read
end and the Forwarder is started with `source = fobj` not owned and
`sink = pipe-write-end` owned; otherwise (write-mode) the exposed file is
the pipe's write end and the Forwarder runs `source = pipe-read-end` owned
and `sink = fobj` not owned. -/
theorem fdwrap_setup_wiring (mode : List Char) :
    (mode.contains 'r' = true →
      fdwrapSetup mode =
        (StreamRef.pipeReadEnd,
         ⟨StreamRef.orig, StreamRef.pipeWriteEnd, false, true⟩)) ∧
    (mode.contains 'r' = false →
      fdwrapSetup mode =
        (StreamRef.pipeWriteEnd,
         ⟨StreamRef.pipeReadEnd, StreamRef.orig, true, false⟩)) := by
  constructor <;> intro h <;> unfold fdwrapSetup <;> rw [h] <;> rfl

/-- Witness for C4: both branches at concrete modes. -/
theorem fdwrap_setup_wiring_witness :
    fdwrapSetup ['r', 'b'] =
      (StreamRef.pipeReadEnd,
       ⟨StreamRef.orig, StreamRef.pipeWriteEnd, false, true⟩) ∧
    fdwrapSetup ['w', 'b'] =
      (StreamRef.pipeWriteEnd,
       ⟨StreamRef.pipeReadEnd, StreamRef.orig, true, false⟩) :=
  ⟨(fdwrap_setup_wiring ['r', 'b']).1 (by decide),
   (fdwrap_setup_wiring ['w', 'b']).2 (by decide)⟩

/-- After any `FDWrap.join`, the exposed file is closed, the Forwarder has
exited, `origId` is unchanged, and the returned object is `self._orig`. -/
theorem FDWrap.join_post (s : FDWrapState) :
    (FDWrap.join s).1.fileClosed = true ∧
    (FDWrap.join s).1.fwd.exited = true ∧
    (FDWrap.join s).1.origId = s.origId ∧
    (FDWrap.join s).2.2 = s.origId := by
  unfold FDWrap.join FDWrap.fileClose Forwarder.join
  rcases s with ⟨n, oc, fc, fwd⟩
  cases fc <;> rcases fwd with ⟨sr, ex, orl, res⟩ <;> cases ex <;> simp

/-- On a state whose exposed file is already closed and whose Forwarder
has already exited, `FDWrap.join` changes nothing, releases nothing (its
trace is just the join call), and returns `origId`. -/
theorem FDWrap.join_of_terminal (s : FDWrapState)
    (hf : s.fileClosed = true) (he : s.fwd.exited = true) :
    FDWrap.join s = (s, [BridgeEv.forwarderJoinCalled], s.origId) := by
  rcases s with ⟨n, oc, fc, fwd⟩
  simp only at hf he
  subst hf
  unfold FDWrap.join FDWrap.fileClose Forwarder.join
  simp [he]

/-- C5: `join()` performs exactly this sequence: it closes the exposed
pipe-end file, then calls the Forwarder's `join` (after which the copy
loop has exited — `exited = true` — and the Forwarder's owned pipe end has
been closed as part of loop exit), and then returns the very stream object
(`origId`) passed at construction, leaving the caller's object unclosed.
Stated on the state produced by `__init__` for an arbitrary object. -/
theorem fdwrap_join_sequence (n : Nat) :
    (FDWrap.join (FDWrap.initState n)).2.1 =
      [BridgeEv.closeExposedFile, BridgeEv.forwarderJoinCalled,
       BridgeEv.ownedEndClosed] ∧
    (FDWrap.join (FDWrap.initState n)).2.2 = n ∧
    (FDWrap.join (FDWrap.initState n)).1.fileClosed = true ∧
    (FDWrap.join (FDWrap.initState n)).1.fwd.exited = true ∧
    (FDWrap.join (FDWrap.initState n)).1.origClosed = false := by
  refine ⟨rfl, rfl, rfl, rfl, rfl⟩

/-- C6: `detach()` requests the Forwarder to stop early
(`stopRequested = true`) and returns the original stream object
(`origId`) without closing it (`origClosed` unchanged); its only effect
beyond the stop request is nothing — trace is exactly the stop request.
In particular (last two conjuncts) after closing the exposed end via the
context-manager exit — the situation of a read-mode Bridge abandoned
before its source is exhausted — `detach()` still returns the original
object and leaves it unclosed; all operations are total in this model, so
no exception is raised. -/
theorem fdwrap_detach_returns_unclosed (s : FDWrapState) :
    (FDWrap.detach s).2.2 = s.origId ∧
    (FDWrap.detach s).1.fwd.stopRequested = true ∧
    (FDWrap.detach s).1.origClosed = s.origClosed ∧
    (FDWrap.detach s).2.1 = [BridgeEv.forwarderStopRequested] ∧
    (FDWrap.detach (FDWrap.exitCM s).1).2.2 = s.origId ∧
    (FDWrap.detach (FDWrap.exitCM s).1).1.origClosed = s.origClosed := by
  unfold FDWrap.detach Forwarder.stop FDWrap.exitCM FDWrap.fileClose
  rcases s with ⟨n, oc, fc, fwd⟩
  cases fc <;> simp

/-- C7: the context-manager exit `__exit__` closes only the exposed
pipe-end file: afterwards `fileClosed = true`, while `origId`,
`origClosed` and the entire Forwarder state are unchanged, and the event
trace holds at most the one close-exposed-file event — no Forwarder
`join`, no `stop`, no close of the original object. -/
theorem fdwrap_exit_closes_only_exposed (s : FDWrapState) :
    (FDWrap.exitCM s).1.fileClosed = true ∧
    (FDWrap.exitCM s).1.origId = s.origId ∧
    (FDWrap.exitCM s).1.origClosed = s.origClosed ∧
    (FDWrap.exitCM s).1.fwd = s.fwd ∧
    ((FDWrap.exitCM s).2 = [] ∨
      (FDWrap.exitCM s).2 = [BridgeEv.closeExposedFile]) := by
  unfold FDWrap.exitCM FDWrap.fileClose
  rcases s with ⟨n, oc, fc, fwd⟩
  cases fc <;> simp

/-- C8: calling `join()` a second time after a completed first `join()`
does not deadlock (both calls are total functions of the state and the
second hits the already-exited Forwarder branch, which the spec requires
to return immediately), does not double-release any resource (the second
call's trace is exactly the Forwarder-join call: no `closeExposedFile`,
no `ownedEndClosed`, and the state is unchanged), and returns the same
result — the same original stream object — as the first call. -/
theorem fdwrap_join_twice (s : FDWrapState) :
    FDWrap.join (FDWrap.join s).1 =
      ((FDWrap.join s).1, [BridgeEv.forwarderJoinCalled], (FDWrap.join s).2.2) := by
  have h := FDWrap.join_post s
  rw [FDWrap.join_of_terminal (FDWrap.join s).1 h.1 h.2.1]
  rw [h.2.2.1, h.2.2.2]

/-- C9: once a `BytesReader`'s position has reached the end of its data,
`read(size)` returns the empty byte string for every `size` argument
(including `None` and negative sizes); and for every non-negative `size`,
`read(size)` returns at most `size` bytes, taken in order from the current
position (exactly the length-`size` prefix of the remaining data). -/
theorem bytesreader_read_contract (b : BytesReader) :
    (b.data.length ≤ b.pos → ∀ s : Option Int, (BytesReader.read b s).1 = []) ∧
    (∀ s : Int, 0 ≤ s →
      (BytesReader.read b (some s)).1 = (b.data.drop b.pos).take s.toNat) := by
  constructor
  · intro hle s
    have hd : b.data.drop b.pos = [] := List.drop_eq_nil_of_le hle
    cases s with
    | none => simpa [BytesReader.read, BytesReader.readview] using hd
    | some v =>
        by_cases hv : v < 0
        · simp [BytesReader.read, BytesReader.readview, hv, hd]
        · simp [BytesReader.read, BytesReader.readview, hv, hd]
  · intro s hs
    have hns : ¬ s < 0 := not_lt.mpr hs
    simp only [BytesReader.read, BytesReader.readview, hns, if_false]
    rcases Nat.le_total (b.pos + s.toNat) b.data.length with h | h
    · rw [min_eq_left h, Nat.add_sub_cancel_left]
    · rw [min_eq_right h]
      have h1 : (b.data.drop b.pos).length ≤ s.toNat := by
        rw [List.length_drop]; omega
      have h2 : (b.data.drop b.pos).length ≤ b.data.length - b.pos := by
        rw [List.length_drop]
      rw [List.take_of_length_le h1, List.take_of_length_le h2]

/-- Witness for C9: a reader at end-of-data returns empty for `read(4)`;
a reader over `[5, 6, 7]` at position 1 returns `[6, 7]` for `read(2)`. -/
theorem bytesreader_read_contract_witness :
    (BytesReader.read ⟨[5, 6], 2⟩ (some 4)).1 = [] ∧
    (BytesReader.read ⟨[5, 6, 7], 1⟩ (some 2)).1 = [6, 7] :=
  ⟨(bytesreader_read_contract ⟨[5, 6], 2⟩).1 (by decide) (some 4),
   by simpa using (bytesreader_read_contract ⟨[5, 6, 7], 1⟩).2 2 (by decide)⟩

/-- C10: on every `DevNull` constructed with `subprocess=True`, `fileno()`
raises `AttributeError` — the condition reads the nonexistent attribute
`self._DEVNULL` (only `DEVNULL` is defined in the class body) outside of
any handler — so `fileno` never returns the subprocess `DEVNULL` sentinel
and never opens the null device on that path (the outcome is the
`raisedAttributeError` constructor, not `returnedSentinel` or
`openedNullDevice`). -/
theorem devnull_fileno_subprocess_raises (d : DevNull) (h : d.is_sp = true) :
    DevNull.fileno d = FilenoOutcome.raisedAttributeError "_DEVNULL" := by
  have hl : DevNull.lookupAttr "_DEVNULL" = none := rfl
  unfold DevNull.fileno
  rw [h, hl]
  rfl

/-- Witness for C10: the instance with `subprocess=True` and no opened
file. -/
theorem devnull_fileno_subprocess_raises_witness :
    DevNull.fileno ⟨true, none⟩ = FilenoOutcome.raisedAttributeError "_DEVNULL" :=
  devnull_fileno_subprocess_raises ⟨true, none⟩ rfl

end IOUtils
